import Mathlib

/-!
Shallow embedding of `msgbuzz/rabbitmq.py` (RabbitMQ pub/sub message bus).

The module under verification contains:
* `RabbitMqQueueNameGenerator` — pure derivation of exchange/queue names;
* `RabbitMqConsumer.message_expired` — retry-ceiling test over message headers;
* `RabbitMqConsumerConfirm` — per-delivery confirm handle (`ack`/`nack`/`retry`)
  scheduling channel actions onto the owning connection via
  `add_callback_threadsafe`;
* `_callback_wrapper` — per-delivery dispatch: reject expired messages,
  otherwise spawn a handler thread;
* `RabbitMqMessageBus.publish` / `_publish` — publish with one
  reconnect-and-retry on `AMQPError`;
* `RabbitMqMessageBus.start_consuming` — zero/one/many subscription
  orchestration;
* `RabbitMqConsumer.run` — reconnect loop around `start_consuming` on the
  channel.

Python dictionaries become association lists, Python truthiness is made
explicit, side effects on channels/connections become action traces, and
the broker / pika client is an oracle supplying the outcome of each
blocking call.
-/

namespace Msgbuzz

/-- A record of the broker-maintained `x-death` header list: per-queue death
bookkeeping; the code reads only its `count` field. -/
structure DeathRecord where
  count : Int
  deriving DecidableEq, Repr

/-- A header value as stored in a pika `BasicProperties.headers` dict.  The
code stores integers (`x-max-retries`), and the broker stores the `x-death`
list; strings cover user-supplied headers. -/
inductive HVal where
  | int (n : Int)
  | str (s : String)
  | deaths (l : List DeathRecord)
  deriving DecidableEq, Repr

/-- Python truthiness of a header value: `0`, `""` and `[]` are falsy. -/
def HVal.truthy : HVal → Bool
  | .int n => n ≠ 0
  | .str s => s ≠ ""
  | .deaths l => !l.isEmpty

/-- The headers dict: an insertion-ordered association list with unique keys
(lookup takes the first match, as a dict has at most one entry per key). -/
abbrev Headers := List (String × HVal)

/-- `d.get(k)`: the value bound to `k`, if any (first match; a dict has at
most one binding per key). -/
def Headers.get : Headers → String → Option HVal
  | [], _ => none
  | (k', v) :: t, k => if k' = k then some v else Headers.get t k

/-- `d[k] = v`: replace the binding of `k` if present, else append it. -/
def Headers.set (h : Headers) (k : String) (v : HVal) : Headers :=
  match h with
  | [] => [(k, v)]
  | (k', v') :: t =>
      if k' = k then (k', v) :: t else (k', v') :: Headers.set t k v

/-- Python truthiness of a dict: non-empty. -/
def Headers.truthy (h : Headers) : Bool := !List.isEmpty h

/-- Truthiness of an optional header lookup (`None` is falsy). -/
def optTruthy : Option HVal → Bool
  | none => false
  | some v => v.truthy

/-- The slice of pika `BasicProperties` the code touches: the `headers`
dict (possibly `None`) and the per-message `expiration` string. -/
structure BasicProperties where
  headers : Option Headers
  expiration : Option String
  deriving DecidableEq

/-- `properties.headers` truthiness: `None` or `{}` are falsy. -/
def BasicProperties.headersTruthy (p : BasicProperties) : Bool :=
  match p.headers with
  | none => false
  | some h => Headers.truthy h

/-- `properties.headers.get(k)` when headers is known truthy. -/
def BasicProperties.hget (p : BasicProperties) (k : String) : Option HVal :=
  match p.headers with
  | none => none
  | some h => Headers.get h k

/-- `headers.get("x-death")[0]["count"] > headers.get("x-max-retries")`:
the final comparison of `message_expired`, defined on the shapes the system
produces (an `x-death` record list and an integer ceiling). -/
def deathCountExceeds : Option HVal → Option HVal → Bool
  | some (.deaths (d :: _)), some (.int n) => d.count > n
  | _, _ => false

/-- `RabbitMqConsumer.message_expired` (rabbitmq.py:173-178): the Python
`and`-chain `headers and headers.get("x-death") and
headers.get("x-max-retries") and headers.get("x-death")[0]["count"] >
headers.get("x-max-retries")`, read as the truthiness of its result (its
only consumer is an `if`). -/
def message_expired (properties : BasicProperties) : Bool :=
  properties.headersTruthy
    && optTruthy (properties.hget "x-death")
    && optTruthy (properties.hget "x-max-retries")
    && deathCountExceeds (properties.hget "x-death") (properties.hget "x-max-retries")

/-- `RabbitMqQueueNameGenerator` (rabbitmq.py:181-203): pure name
derivation from topic and client group. -/
structure RabbitMqQueueNameGenerator where
  topic_name : String
  client_group : String
  deriving DecidableEq, Repr

namespace RabbitMqQueueNameGenerator

/-- `exchange_name`: the topic itself. -/
def exchange_name (g : RabbitMqQueueNameGenerator) : String := g.topic_name

/-- `queue_name`: `f"{topic}.{group}"`. -/
def queue_name (g : RabbitMqQueueNameGenerator) : String :=
  g.topic_name ++ "." ++ g.client_group

/-- `retry_queue_name`: `f"{queue_name}__retry"`. -/
def retry_queue_name (g : RabbitMqQueueNameGenerator) : String :=
  g.queue_name ++ "__retry"

/-- `retry_exchange`: same name as the retry queue. -/
def retry_exchange (g : RabbitMqQueueNameGenerator) : String :=
  g.retry_queue_name

/-- `dlx_queue_name`: `f"{queue_name}__failed"`. -/
def dlx_queue_name (g : RabbitMqQueueNameGenerator) : String :=
  g.queue_name ++ "__failed"

/-- `dlx_exchange`: same name as the dead-letter queue. -/
def dlx_exchange (g : RabbitMqQueueNameGenerator) : String :=
  g.dlx_queue_name

end RabbitMqQueueNameGenerator

/-- A topology declaration issued against a channel during
`register_queues`; `exchange_type` is the pika argument (its default is
`"direct"` when the keyword is not passed). -/
inductive DeclOp where
  | exchange_declare (exchange : String) (exchange_type : String) (durable : Bool)
  | queue_declare (queue : String) (durable : Bool) (arguments : List (String × String))
  | queue_bind (exchange queue : String)
  deriving DecidableEq

/-- `RabbitMqConsumer.register_queues` (rabbitmq.py:148-171): the ordered
declarations setting up the dead-letter route, the fan-out exchange, the
main queue (dead-lettering into the dlx route), and the retry route
(dead-lettering back into the main queue). -/
def register_queues (q_names : RabbitMqQueueNameGenerator) : List DeclOp :=
  [ DeclOp.exchange_declare q_names.dlx_exchange "direct" true,
    DeclOp.queue_declare q_names.dlx_queue_name true [],
    DeclOp.queue_bind q_names.dlx_exchange q_names.dlx_queue_name,
    DeclOp.exchange_declare q_names.exchange_name "fanout" true,
    DeclOp.queue_declare q_names.queue_name true
      [("x-dead-letter-exchange", q_names.dlx_exchange),
       ("x-dead-letter-routing-key", q_names.dlx_queue_name)],
    DeclOp.queue_bind q_names.exchange_name q_names.queue_name,
    DeclOp.exchange_declare q_names.retry_exchange "direct" true,
    DeclOp.queue_bind q_names.retry_exchange q_names.queue_name,
    DeclOp.queue_declare q_names.retry_queue_name true
      [("x-dead-letter-exchange", q_names.retry_exchange),
       ("x-dead-letter-routing-key", q_names.queue_name)] ]

/-- A message body: an opaque byte sequence. -/
abbrev Body := List Nat

/-- An observable action performed on a channel (the pika calls the code
issues against the broker). -/
inductive ChannelAction where
  | publish (exchange routing_key : String) (body : Body) (properties : BasicProperties)
  | ack (delivery_tag : Nat)
  | nack (delivery_tag : Nat) (requeue : Bool)
  deriving DecidableEq

/-- The ordered trace of actions issued on a channel. -/
abbrev ChanLog := List ChannelAction

/-- `channel.basic_publish(exchange, routing_key, body, properties=...)`. -/
def basic_publish (exchange routing_key : String) (body : Body)
    (properties : BasicProperties) (log : ChanLog) : ChanLog :=
  List.append log [ChannelAction.publish exchange routing_key body properties]

/-- `channel.basic_ack(delivery_tag=tag)`. -/
def basic_ack (delivery_tag : Nat) (log : ChanLog) : ChanLog :=
  List.append log [ChannelAction.ack delivery_tag]

/-- `channel.basic_nack(delivery_tag, requeue=...)`. -/
def basic_nack (delivery_tag : Nat) (requeue : Bool) (log : ChanLog) : ChanLog :=
  List.append log [ChannelAction.nack delivery_tag requeue]

/-- `Basic.Deliver`: the delivery method frame; the code reads only its
`delivery_tag`. -/
structure Deliver where
  delivery_tag : Nat
  deriving DecidableEq

/-- The owning `BlockingConnection`'s view as the confirm handle sees it: a
queue of callbacks registered via `add_callback_threadsafe`, each run later
on the connection's own context against the channel trace. -/
structure BlockingConnection where
  callbacks : List (ChanLog → ChanLog)

/-- `conn.add_callback_threadsafe(cb)`: enqueue `cb` for execution on the
connection's context. -/
def add_callback_threadsafe (conn : BlockingConnection)
    (cb : ChanLog → ChanLog) : BlockingConnection :=
  { conn with callbacks := List.append conn.callbacks [cb] }

/-- `RabbitMqConsumerConfirm` (rabbitmq.py:206-253): the per-delivery
confirm handle, bound to the topology names, the delivery, its properties
and body (the channel and connection are supplied where its actions run). -/
structure RabbitMqConsumerConfirm where
  names_gen : RabbitMqQueueNameGenerator
  delivery : Deliver
  properties : BasicProperties
  body : Body

namespace RabbitMqConsumerConfirm

/-- The callback `ack()` registers: `basic_ack(delivery_tag)`. -/
def ackCb (self : RabbitMqConsumerConfirm) : ChanLog → ChanLog :=
  fun log => basic_ack self.delivery.delivery_tag log

/-- `ack()` (rabbitmq.py:227-231): schedule a positive acknowledgment on
the owning connection. -/
def ack (self : RabbitMqConsumerConfirm) (conn : BlockingConnection) :
    BlockingConnection :=
  add_callback_threadsafe conn self.ackCb

/-- The callback `nack()` registers: `basic_nack(delivery_tag, requeue=False)`. -/
def nackCb (self : RabbitMqConsumerConfirm) : ChanLog → ChanLog :=
  fun log => basic_nack self.delivery.delivery_tag false log

/-- `nack()` (rabbitmq.py:233-237): schedule a negative acknowledgment
without requeue on the owning connection. -/
def nack (self : RabbitMqConsumerConfirm) (conn : BlockingConnection) :
    BlockingConnection :=
  add_callback_threadsafe conn self.nackCb

/-- Default `delay` argument of `retry` (milliseconds). -/
def retryDefaultDelay : Nat := 60000

/-- Default `max_retries` argument of `retry`. -/
def retryDefaultMaxRetries : Int := 3

/-- The properties as mutated inside `retry`'s callback:
`expiration = str(delay)`; headers dict created if `None`; then
`headers["x-max-retries"] = max_retries`. -/
def retryProps (self : RabbitMqConsumerConfirm) (delay : Nat)
    (max_retries : Int) : BasicProperties :=
  let p := { self.properties with expiration := some (toString delay) }
  let hs := match p.headers with
    | none => ([] : Headers)
    | some h => h
  { p with headers := some (Headers.set hs "x-max-retries" (HVal.int max_retries)) }

/-- The callback `retry(delay, max_retries)` registers: mutate the
properties, republish body+properties to the retry queue via the default
exchange, then ack the original delivery. -/
def retryCb (self : RabbitMqConsumerConfirm) (delay : Nat)
    (max_retries : Int) : ChanLog → ChanLog :=
  fun log =>
    let props := self.retryProps delay max_retries
    let log := basic_publish "" self.names_gen.retry_queue_name self.body props log
    basic_ack self.delivery.delivery_tag log

/-- `retry(delay=60000, max_retries=3)` (rabbitmq.py:239-253): schedule the
republish-then-ack callback on the owning connection. -/
def retry (self : RabbitMqConsumerConfirm) (delay : Nat) (max_retries : Int)
    (conn : BlockingConnection) : BlockingConnection :=
  add_callback_threadsafe conn (self.retryCb delay max_retries)

end RabbitMqConsumerConfirm

/-- A dispatch unit: the thread `_callback_wrapper` spawns, holding the
caller-supplied handler (abstracted as a tag of type `α`) and its
arguments `(RabbitMqConsumerConfirm(...), body)`. -/
structure DispatchUnit (α : Type) where
  target : α
  confirm : RabbitMqConsumerConfirm
  body : Body

/-- `_callback_wrapper(conn, names_gen, callback, threads).fn`
(rabbitmq.py:264-276), as a pure step: given the delivery frame,
properties and body, it returns the channel actions it issues and the
updated tracked-threads list.  `method is None` does nothing; an expired
message is nacked without requeue and not dispatched; otherwise one thread
running the handler is started and appended to `threads`. -/
def callbackWrapperFn {α : Type} (names_gen : RabbitMqQueueNameGenerator)
    (callback : α) (method : Option Deliver) (properties : BasicProperties)
    (body : Body) (log : ChanLog) (threads : List (DispatchUnit α)) :
    ChanLog × List (DispatchUnit α) :=
  match method with
  | none => (log, threads)
  | some m =>
      if message_expired properties then
        (basic_nack m.delivery_tag false log, threads)
      else
        (log, List.append threads
          [⟨callback, ⟨names_gen, m, properties, body⟩, body⟩])

/-! ### Publish path (`RabbitMqMessageBus.publish` / `_publish` / `_connect`) -/

/-- Outcome the broker client gives one `_publish` attempt: either the
publish goes through, or some `pika.exceptions.AMQPError` is raised. -/
inductive AttemptOutcome where
  | success
  | amqpError
  deriving DecidableEq

/-- The error `publish` can surface to its caller. -/
inductive PubErr where
  | amqp
  deriving DecidableEq

/-- State of the bus's publish path: whether `self._conn` exists and is
open, how many `basic_publish` attempts were made, and how many times a
new `BlockingConnection` was opened. -/
structure PubState where
  conn_open : Option Bool
  attempts : Nat
  reconnects : Nat
  deriving DecidableEq

/-- A bus that has never connected (`self._conn = None`). -/
def PubState.fresh : PubState := ⟨none, 0, 0⟩

namespace RabbitMqMessageBus

/-- `_connect` (rabbitmq.py:69-71): open a new `BlockingConnection` only
when `self._conn` is absent or closed. -/
def busConnect (s : PubState) : PubState :=
  match s.conn_open with
  | some true => s
  | _ => { s with conn_open := some true, reconnects := s.reconnects + 1 }

/-- `_publish` (rabbitmq.py:73-84): `_connect`, then open a channel,
declare the exchange and `basic_publish` — collapsed into one attempt
whose outcome the `oracle` supplies (indexed by attempt number).  A
raised `AMQPError` of the connection kind leaves the connection closed. -/
def busPublishOnce (oracle : Nat → AttemptOutcome) (s : PubState) :
    PubState × Except PubErr Unit :=
  let s := busConnect s
  match oracle s.attempts with
  | .success => ({ s with attempts := s.attempts + 1 }, .ok ())
  | .amqpError =>
      ({ s with attempts := s.attempts + 1, conn_open := some false },
       .error .amqp)

/-- `publish` (rabbitmq.py:39-44): try `_publish`; on `AMQPError` log and
call `_publish` once more, letting a second error propagate. -/
def publish (oracle : Nat → AttemptOutcome) (s : PubState) :
    PubState × Except PubErr Unit :=
  let r := busPublishOnce oracle s
  match r.2 with
  | Except.error _ => busPublishOnce oracle r.1
  | Except.ok _ => r

end RabbitMqMessageBus

/-! ### Bus orchestration (`start_consuming`) -/

/-- `pika.PlainCredentials(username, password)`. -/
structure PlainCredentials where
  username : String
  password : String
  deriving DecidableEq, Repr

/-- `pika.ConnectionParameters(host, port, credentials=..., **kwargs)`. -/
structure ConnectionParameters where
  host : String
  port : Nat
  credentials : PlainCredentials
  kwargs : List (String × String)
  deriving DecidableEq, Repr

/-- `kwargs.pop(k, default)` on a dict held as an association list with
unique keys: return the bound value or the default, and the dict without
the binding. -/
def kwpop (kw : List (String × String)) (k dflt : String) :
    String × List (String × String) :=
  match List.find? (fun p => p.1 = k) kw with
  | some p => (p.2, List.eraseP (fun q => q.1 = k) kw)
  | none => (dflt, kw)

/-- `RabbitMqConsumer.__init__` (rabbitmq.py:89-104): per-(topic, group)
consumer; handlers are abstracted as values of type `α` (the code never
inspects them).  `retry_after` defaults to 5 seconds. -/
structure RabbitMqConsumer (α : Type) where
  conn_params : ConnectionParameters
  topic_name : String
  client_group : String
  name_generator : RabbitMqQueueNameGenerator
  callback : α
  retry_after : Nat
  deriving DecidableEq

/-- `RabbitMqConsumer(conn_params, topic_name, client_group, callback)`
with the default `retry_after=5`. -/
def mkConsumer {α : Type} (conn_params : ConnectionParameters)
    (topic_name client_group : String) (callback : α) : RabbitMqConsumer α :=
  ⟨conn_params, topic_name, client_group, ⟨topic_name, client_group⟩, callback, 5⟩

/-- `RabbitMqMessageBus.__init__` (rabbitmq.py:18-25): subscriptions are
an insertion-ordered dict topic → (group, callback) with unique topics. -/
structure RabbitMqMessageBus (α : Type) where
  host : String
  port : Nat
  kwargs : List (String × String)
  subscribers : List (String × String × α)
  consumers : List (RabbitMqConsumer α)
  credentials : Option PlainCredentials
  deriving DecidableEq

namespace RabbitMqMessageBus

/-- `_credentials` (rabbitmq.py:31-37): on first use pop `username` /
`password` from kwargs (defaults `guest`/`guest`) and cache the
`PlainCredentials`; afterwards return the cached value. -/
def busCredentials {α : Type} (b : RabbitMqMessageBus α) :
    RabbitMqMessageBus α × PlainCredentials :=
  match b.credentials with
  | some c => (b, c)
  | none =>
      let u := kwpop b.kwargs "username" "guest"
      let pw := kwpop u.2 "password" "guest"
      let c : PlainCredentials := ⟨u.1, pw.1⟩
      ({ b with kwargs := pw.2, credentials := some c }, c)

/-- `_conn_params` (rabbitmq.py:27-29): fresh `ConnectionParameters` from
host, port, the (possibly just-resolved) credentials and remaining kwargs. -/
def conn_params {α : Type} (b : RabbitMqMessageBus α) :
    RabbitMqMessageBus α × ConnectionParameters :=
  let r := busCredentials b
  (r.1, ⟨r.1.host, r.1.port, r.2, r.1.kwargs⟩)

end RabbitMqMessageBus

/-- An observable process-level operation of `start_consuming`:
`consumer.run()` inline on the calling context, `consumer.start()`
spawning a child process and returning at once, or `consumer.join()`
waiting for a spawned unit to exit. -/
inductive BusOp (α : Type) where
  | runInlineUnit (c : RabbitMqConsumer α)
  | startUnit (c : RabbitMqConsumer α)
  | joinUnit (c : RabbitMqConsumer α)
  deriving DecidableEq

namespace RabbitMqMessageBus

/-- The `for topic_name, (client_group, callback) in self._subscribers.items()`
loop of `start_consuming` (rabbitmq.py:64-67): per subscription, read
`self._conn_params`, build a consumer, append it to `self._consumers`,
and `start()` it. -/
def startAll {α : Type} (b : RabbitMqMessageBus α) :
    List (String × String × α) → RabbitMqMessageBus α × List (BusOp α)
  | [] => (b, [])
  | s :: rest =>
      let r := conn_params b
      let c := mkConsumer r.2 s.1 s.2.1 s.2.2
      let b1 := { r.1 with consumers := List.append r.1.consumers [c] }
      let r2 := startAll b1 rest
      (r2.1, BusOp.startUnit c :: r2.2)

/-- `start_consuming` (rabbitmq.py:49-67): zero subscriptions — return at
once; one — run that consumer inline; several — spawn one child process
per subscription.  Returns the final bus state and the ordered trace of
process operations the call performs before returning. -/
def start_consuming {α : Type} (b : RabbitMqMessageBus α) :
    RabbitMqMessageBus α × List (BusOp α) :=
  let consumer_count := b.subscribers.length
  if consumer_count = 0 then (b, [])
  else if consumer_count = 1 then
    match b.subscribers with
    | [] => (b, [])
    | s :: _ =>
        let r := conn_params b
        let c := mkConsumer r.2 s.1 s.2.1 s.2.2
        ({ r.1 with consumers := List.append r.1.consumers [c] },
         [BusOp.runInlineUnit c])
  else startAll b b.subscribers

end RabbitMqMessageBus

/-! ### Consumer reconnect loop (`RabbitMqConsumer.run`) -/

/-- How one iteration of the `while True` body of `run`
(rabbitmq.py:106-146) ends: `channel.start_consuming()` raises
`KeyboardInterrupt`, raises `pika.exceptions.AMQPConnectionError`, or the
iteration raises some other, unhandled exception. -/
inductive IterOutcome where
  | interrupt
  | connError
  | otherFault
  deriving DecidableEq

/-- How the loop as a whole stands after consuming a finite stream of
iteration outcomes. -/
inductive RunResult where
  | running      -- stream exhausted, loop re-entering its next iteration
  | interrupted  -- exited via `break` after `KeyboardInterrupt`
  | raised       -- an unhandled exception propagated out of the loop
  deriving DecidableEq

namespace RabbitMqConsumer

/-- `run` (rabbitmq.py:106-146) as a transition over a finite stream of
iteration outcomes: `KeyboardInterrupt` → `stop_consuming` and `break`;
`AMQPConnectionError` → `time.sleep(retry_after)` and `continue`; any
other exception propagates.  Returns the loop's standing and the ordered
list of sleep durations performed.  (The `finally` resource cleanup does
not affect control flow and is elided.) -/
def runLoop (retry_after : Nat) : List IterOutcome → RunResult × List Nat
  | [] => (.running, [])
  | .interrupt :: _ => (.interrupted, [])
  | .connError :: rest =>
      let r := runLoop retry_after rest
      (r.1, retry_after :: r.2)
  | .otherFault :: _ => (.raised, [])

end RabbitMqConsumer

/-! ### Concrete sample values used by witnesses and counterexamples -/

/-- A sample bus with no subscriptions. -/
def emptyBus : RabbitMqMessageBus Nat :=
  ⟨"localhost", 5672, [], [], [], none⟩

/-- Sample properties for C10: both headers present, ceiling zero. -/
def zeroCeilingProps : BasicProperties :=
  ⟨some [("x-death", HVal.deaths [⟨9⟩]), ("x-max-retries", HVal.int 0)], none⟩

/-- Properties on which C2's presence-based reading and the code part
ways: both headers present, first death count 1 exceeds the ceiling 0. -/
def presenceCexProps : BasicProperties :=
  ⟨some [("x-death", HVal.deaths [⟨1⟩]), ("x-max-retries", HVal.int 0)], none⟩

/-- Sample properties for C2's amended theorem: count 5 against ceiling 3. -/
def overCeilingProps : BasicProperties :=
  ⟨some [("x-death", HVal.deaths [⟨5⟩]), ("x-max-retries", HVal.int 3)], none⟩

/-- Sample expired properties for C3: count 9 against ceiling 3. -/
def c3ExpiredProps : BasicProperties :=
  ⟨some [("x-death", HVal.deaths [⟨9⟩]), ("x-max-retries", HVal.int 3)], none⟩

/-- A sample confirm handle for C1's witness. -/
def sampleConfirm : RabbitMqConsumerConfirm :=
  ⟨RabbitMqQueueNameGenerator.mk "orders" "billing", ⟨4⟩,
   ⟨none, none⟩, [1, 2]⟩

/-- A broker that rejects every publish attempt. -/
def alwaysDown : Nat → AttemptOutcome := fun _ => AttemptOutcome.amqpError

/-- A sample bus with two subscriptions, for C7. -/
def twoSubBus : RabbitMqMessageBus Nat :=
  ⟨"localhost", 5672, [], [("t1", "g1", 0), ("t2", "g2", 1)], [], none⟩

/-! ## Helper lemmas -/

/-- Looking up the key just assigned returns the new value. -/
theorem Headers.get_set_self (h : Headers) (k : String) (v : HVal) :
    Headers.get (Headers.set h k v) k = some v := by
  induction h with
  | nil => simp [Headers.set, Headers.get]
  | cons p t ih =>
      obtain ⟨k1, v1⟩ := p
      by_cases hk : k1 = k
      · simp [Headers.set, Headers.get, hk]
      · simp [Headers.set, Headers.get, hk, ih]

/-- Assigning one key leaves every other key's binding unchanged. -/
theorem Headers.get_set_other (h : Headers) (k k2 : String) (v : HVal)
    (hne : k2 ≠ k) :
    Headers.get (Headers.set h k v) k2 = Headers.get h k2 := by
  induction h with
  | nil => simp [Headers.set, Headers.get, hne.symm]
  | cons p t ih =>
      obtain ⟨k1, v1⟩ := p
      by_cases hk : k1 = k
      · subst hk
        simp [Headers.set, Headers.get, hne.symm]
      · simp [Headers.set, Headers.get, hk, ih]

/-- A successful header lookup forces the headers dict to be present and
non-empty, hence truthy. -/
theorem hget_some_headersTruthy (p : BasicProperties) (k : String) (v : HVal)
    (h : p.hget k = some v) : p.headersTruthy = true := by
  cases hp : p.headers with
  | none => simp [BasicProperties.hget, hp] at h
  | some hs =>
      cases hs with
      | nil => simp [BasicProperties.hget, hp, Headers.get] at h
      | cons q t =>
          simp [BasicProperties.headersTruthy, hp, Headers.truthy]

/-! ## Claim theorems -/

/-- C4: for every pair of non-empty strings (topic, group), the topology
name derivation is a pure, deterministic function yielding exactly
`exchange = topic`, `queue = topic.group`, retry exchange and retry queue
`topic.group__retry`, and dead-letter exchange and queue
`topic.group__failed`; being a function of (topic, group) alone, repeated
calls return the same names. -/
theorem topology_names_spec (topic group : String)
    (htopic : topic ≠ "") (hgroup : group ≠ "") :
    (RabbitMqQueueNameGenerator.mk topic group).exchange_name = topic ∧
    (RabbitMqQueueNameGenerator.mk topic group).queue_name
        = topic ++ "." ++ group ∧
    (RabbitMqQueueNameGenerator.mk topic group).retry_exchange
        = topic ++ "." ++ group ++ "__retry" ∧
    (RabbitMqQueueNameGenerator.mk topic group).retry_queue_name
        = topic ++ "." ++ group ++ "__retry" ∧
    (RabbitMqQueueNameGenerator.mk topic group).dlx_exchange
        = topic ++ "." ++ group ++ "__failed" ∧
    (RabbitMqQueueNameGenerator.mk topic group).dlx_queue_name
        = topic ++ "." ++ group ++ "__failed" :=
  ⟨rfl, rfl, rfl, rfl, rfl, rfl⟩

/-- Witness for C4 at `("orders", "billing")`. -/
theorem topology_names_spec_witness :
    ("orders" : String) ≠ "" ∧
    (RabbitMqQueueNameGenerator.mk "orders" "billing").queue_name
        = "orders" ++ "." ++ "billing" :=
  ⟨by decide, (topology_names_spec "orders" "billing" (by decide) (by decide)).2.1⟩

/-- C8: with zero registered subscriptions, `start_consuming` returns
immediately: it performs no process operation (so no consumer is created
and no connection opened) and leaves the bus state untouched. -/
theorem start_consuming_zero_subs {α : Type} (b : RabbitMqMessageBus α)
    (h : b.subscribers = []) :
    RabbitMqMessageBus.start_consuming b = (b, []) := by
  simp [RabbitMqMessageBus.start_consuming, h]

/-- Witness for C8 on a concrete subscription-free bus. -/
theorem start_consuming_zero_subs_witness :
    emptyBus.subscribers = [] ∧
    RabbitMqMessageBus.start_consuming emptyBus = (emptyBus, []) :=
  ⟨rfl, start_consuming_zero_subs emptyBus rfl⟩

/-- C6: `nack()` schedules exactly one callback on the owning connection's
context; run on any channel trace, that callback issues precisely one
negative acknowledgment of the delivery with `requeue = false`.  The
consumer's main queue is declared dead-lettering into the dlx route, so
a `requeue = false` rejection is routed to the dead-letter destination
rather than back onto the main queue. -/
theorem nack_schedules_dead_letter (self : RabbitMqConsumerConfirm)
    (conn : BlockingConnection) :
    (self.nack conn).callbacks = List.append conn.callbacks [self.nackCb] ∧
    (∀ log : ChanLog,
      self.nackCb log
        = List.append log [ChannelAction.nack self.delivery.delivery_tag false]) ∧
    DeclOp.queue_declare self.names_gen.queue_name true
        [("x-dead-letter-exchange", self.names_gen.dlx_exchange),
         ("x-dead-letter-routing-key", self.names_gen.dlx_queue_name)]
      ∈ register_queues self.names_gen := by
  refine ⟨rfl, fun _ => rfl, ?_⟩
  simp [register_queues]

/-- C10: when the headers dict is present and carries both `x-death` and
`x-max-retries`, a zero `x-max-retries` or an empty `x-death` list makes
`message_expired` falsy regardless of the accumulated death count: the
guards test Python truthiness, not mere presence. -/
theorem message_expired_truthiness (p : BasicProperties) (h : Headers)
    (hh : p.headers = some h)
    (hd : Headers.get h "x-death" ≠ none)
    (hm : Headers.get h "x-max-retries" ≠ none)
    (hz : Headers.get h "x-max-retries" = some (HVal.int 0) ∨
          Headers.get h "x-death" = some (HVal.deaths [])) :
    message_expired p = false := by
  rcases hz with hz | hz <;>
    simp [message_expired, BasicProperties.hget, hh, hz, optTruthy,
      HVal.truthy, deathCountExceeds]

/-- Witness for C10: death count 9 yet not expired, because the
`x-max-retries` value 0 is falsy. -/
theorem message_expired_truthiness_witness :
    zeroCeilingProps.headers
        = some [("x-death", HVal.deaths [⟨9⟩]), ("x-max-retries", HVal.int 0)] ∧
    message_expired zeroCeilingProps = false :=
  ⟨rfl, message_expired_truthiness zeroCeilingProps _ rfl (by decide) (by decide)
    (Or.inl (by decide))⟩

/-- C9: in the consumer's `run` loop, every `AMQPConnectionError`
iteration sleeps `retry_after` seconds and re-enters the
connect-and-consume cycle; any number of consecutive connection errors
leaves the loop running (one sleep each, never terminating it); the loop
breaks out only when an interrupt arrives. -/
theorem run_loop_survives_conn_errors (retry_after : Nat) :
    (∀ rest : List IterOutcome,
      RabbitMqConsumer.runLoop retry_after (IterOutcome.connError :: rest)
        = ((RabbitMqConsumer.runLoop retry_after rest).1,
           retry_after :: (RabbitMqConsumer.runLoop retry_after rest).2)) ∧
    (∀ n : Nat,
      RabbitMqConsumer.runLoop retry_after
          (List.replicate n IterOutcome.connError)
        = (RunResult.running, List.replicate n retry_after)) ∧
    (∀ rest : List IterOutcome,
      RabbitMqConsumer.runLoop retry_after (IterOutcome.interrupt :: rest)
        = (RunResult.interrupted, [])) ∧
    (∀ outs : List IterOutcome,
      (RabbitMqConsumer.runLoop retry_after outs).1 = RunResult.interrupted →
        IterOutcome.interrupt ∈ outs) := by
  refine ⟨fun rest => rfl, ?_, fun rest => rfl, ?_⟩
  · intro n
    induction n with
    | zero => rfl
    | succ m ih => simp [List.replicate, RabbitMqConsumer.runLoop, ih]
  · intro outs
    induction outs with
    | nil => intro h; simp [RabbitMqConsumer.runLoop] at h
    | cons o rest ih =>
        intro h
        cases o with
        | interrupt => exact List.mem_cons_self _ _
        | connError =>
            exact List.mem_cons_of_mem _ (ih (by simpa [RabbitMqConsumer.runLoop] using h))
        | otherFault => simp [RabbitMqConsumer.runLoop] at h

/-- Witness for C9: three straight connection errors leave the loop
running with three `retry_after`-second sleeps, and a stream ending in an
interrupt did contain one. -/
theorem run_loop_survives_conn_errors_witness :
    RabbitMqConsumer.runLoop 5 (List.replicate 3 IterOutcome.connError)
        = (RunResult.running, List.replicate 3 5) ∧
    IterOutcome.interrupt ∈ [IterOutcome.connError, IterOutcome.interrupt] :=
  ⟨(run_loop_survives_conn_errors 5).2.1 3,
   (run_loop_survives_conn_errors 5).2.2.2
     [IterOutcome.connError, IterOutcome.interrupt] (by decide)⟩

/-- C2 counterexample: headers, `x-death` and `x-max-retries` are all
present and the first death count (1) strictly exceeds `x-max-retries`
(0), yet `message_expired` is falsy — presence of the headers is not
sufficient, contrary to the claim's iff. -/
theorem message_expired_presence_counterexample :
    presenceCexProps.headers ≠ none ∧
    presenceCexProps.hget "x-death" = some (HVal.deaths [⟨1⟩]) ∧
    presenceCexProps.hget "x-max-retries" = some (HVal.int 0) ∧
    ((1 : Int) > 0) ∧
    message_expired presenceCexProps = false := by decide

/-- C2 (amended): when `x-death` is bound to a record list and
`x-max-retries` to an integer, `message_expired` is true iff the
bindings are truthy — `x-max-retries` nonzero and `x-death` non-empty —
and the first death record's count strictly exceeds `x-max-retries`
(presence alone does not suffice: the guards test truthiness). -/
theorem message_expired_iff (p : BasicProperties)
    (deaths : List DeathRecord) (maxr : Int)
    (hd : p.hget "x-death" = some (HVal.deaths deaths))
    (hm : p.hget "x-max-retries" = some (HVal.int maxr)) :
    message_expired p = true ↔
      maxr ≠ 0 ∧ ∃ d rest, deaths = d :: rest ∧ maxr < d.count := by
  have ht := hget_some_headersTruthy p "x-death" _ hd
  cases deaths with
  | nil =>
      simp [message_expired, ht, hd, hm, optTruthy, HVal.truthy,
        deathCountExceeds]
  | cons d rest =>
      simp [message_expired, ht, hd, hm, optTruthy, HVal.truthy,
        deathCountExceeds, and_comm]

/-- Witness for C2 (amended) at count 5, ceiling 3: expired. -/
theorem message_expired_iff_witness :
    overCeilingProps.hget "x-death" = some (HVal.deaths [⟨5⟩]) ∧
    (message_expired overCeilingProps = true ↔
      (3 : Int) ≠ 0 ∧
        ∃ d rest, [(⟨5⟩ : DeathRecord)] = d :: rest ∧ (3 : Int) < d.count) :=
  ⟨by decide, message_expired_iff overCeilingProps [⟨5⟩] 3 (by decide) (by decide)⟩

/-- C3: a delivery whose properties are expired is negatively acknowledged
without requeue and spawns no dispatch unit (the handler is never run for
it); a non-expired delivery issues no channel action and appends exactly
one tracked dispatch unit running the handler on a fresh confirm handle. -/
theorem dispatch_expired_vs_fresh {α : Type} (g : RabbitMqQueueNameGenerator)
    (cb : α) (m : Deliver) (p : BasicProperties) (body : Body)
    (log : ChanLog) (threads : List (DispatchUnit α)) :
    (message_expired p = true →
      callbackWrapperFn g cb (some m) p body log threads
        = (List.append log [ChannelAction.nack m.delivery_tag false], threads)) ∧
    (message_expired p = false →
      callbackWrapperFn g cb (some m) p body log threads
        = (log, List.append threads [⟨cb, ⟨g, m, p, body⟩, body⟩])) := by
  constructor <;> intro h <;> simp [callbackWrapperFn, h, basic_nack]

/-- Witness for C3: an expired delivery (count 9 > ceiling 3) is nacked
without requeue and the tracked-thread list stays empty. -/
theorem dispatch_expired_vs_fresh_witness :
    message_expired c3ExpiredProps = true ∧
    callbackWrapperFn (RabbitMqQueueNameGenerator.mk "t" "g") (0 : Nat)
        (some ⟨7⟩) c3ExpiredProps [] [] []
      = ([ChannelAction.nack 7 false], []) :=
  ⟨by decide,
   (dispatch_expired_vs_fresh (RabbitMqQueueNameGenerator.mk "t" "g") 0 ⟨7⟩
       c3ExpiredProps [] [] []).1 (by decide)⟩

/-- C1: `retry(delay, max_retries)` (defaults 60000 and 3) schedules
exactly one callback on the owning connection's context; run on any
channel trace, that callback first republishes the original body with the
original properties — mutated so that `expiration = str(delay)` and
header `x-max-retries = max_retries`, the headers dict being created when
absent and every other header kept — onto the retry queue (default
exchange, routing key `<topic>.<group>__retry`), and then positively
acknowledges the original delivery tag. -/
theorem retry_schedules_republish_then_ack (self : RabbitMqConsumerConfirm)
    (delay : Nat) (max_retries : Int) (conn : BlockingConnection) :
    RabbitMqConsumerConfirm.retryDefaultDelay = 60000 ∧
    RabbitMqConsumerConfirm.retryDefaultMaxRetries = 3 ∧
    (self.retry delay max_retries conn).callbacks
        = List.append conn.callbacks [self.retryCb delay max_retries] ∧
    ∀ log : ChanLog, ∃ hs : Headers,
      self.retryCb delay max_retries log
          = List.append log
              [ChannelAction.publish "" self.names_gen.retry_queue_name
                  self.body ⟨some hs, some (toString delay)⟩,
               ChannelAction.ack self.delivery.delivery_tag] ∧
      Headers.get hs "x-max-retries" = some (HVal.int max_retries) ∧
      ∀ k : String, k ≠ "x-max-retries" →
        Headers.get hs k = self.properties.hget k := by
  refine ⟨rfl, rfl, rfl, ?_⟩
  intro log
  refine ⟨Headers.set (self.properties.headers.getD []) "x-max-retries"
      (HVal.int max_retries), ?_, ?_, ?_⟩
  · cases hp : self.properties.headers <;>
      simp [RabbitMqConsumerConfirm.retryCb, RabbitMqConsumerConfirm.retryProps,
        basic_publish, basic_ack, hp]
  · exact Headers.get_set_self _ _ _
  · intro k hk
    rw [Headers.get_set_other _ _ _ _ hk]
    cases hp : self.properties.headers <;>
      simp [BasicProperties.hget, hp, Headers.get]

/-- Witness for C1: on an empty context and empty trace, `retry 1000 2`
schedules one callback which publishes to `orders.billing__retry` with
`expiration = "1000"` and `x-max-retries = 2`, then acks tag 4. -/
theorem retry_schedules_republish_then_ack_witness :
    RabbitMqConsumerConfirm.retryDefaultDelay = 60000 ∧
    (sampleConfirm.retry 1000 2 ⟨[]⟩).callbacks
        = List.append ([] : List (ChanLog → ChanLog))
            [sampleConfirm.retryCb 1000 2] ∧
    sampleConfirm.retryCb 1000 2 []
        = [ChannelAction.publish "" "orders.billing__retry" [1, 2]
             ⟨some [("x-max-retries", HVal.int 2)], some "1000"⟩,
           ChannelAction.ack 4] :=
  ⟨(retry_schedules_republish_then_ack sampleConfirm 1000 2 ⟨[]⟩).1,
   (retry_schedules_republish_then_ack sampleConfirm 1000 2 ⟨[]⟩).2.2.1,
   by decide⟩

/-- C5: `publish` makes at most two `_publish` attempts: a first success
is final (one attempt, no retry); an `AMQPError` on the first attempt
triggers exactly one further attempt, preceded by opening a fresh
connection, whose outcome — success or a propagated error — is the
caller's result. -/
theorem publish_retries_once (oracle : Nat → AttemptOutcome) :
    ((RabbitMqMessageBus.publish oracle PubState.fresh).1.attempts ≤ 2) ∧
    (oracle 0 = AttemptOutcome.success →
      (RabbitMqMessageBus.publish oracle PubState.fresh).1.attempts = 1 ∧
      (RabbitMqMessageBus.publish oracle PubState.fresh).2 = Except.ok ()) ∧
    (oracle 0 = AttemptOutcome.amqpError →
      (RabbitMqMessageBus.publish oracle PubState.fresh).1.attempts = 2 ∧
      (RabbitMqMessageBus.publish oracle PubState.fresh).1.reconnects = 2 ∧
      (oracle 1 = AttemptOutcome.success →
        (RabbitMqMessageBus.publish oracle PubState.fresh).2 = Except.ok ()) ∧
      (oracle 1 = AttemptOutcome.amqpError →
        (RabbitMqMessageBus.publish oracle PubState.fresh).2
          = Except.error PubErr.amqp)) := by
  rcases h0 : oracle 0 <;> rcases h1 : oracle 1 <;>
    simp [RabbitMqMessageBus.publish, RabbitMqMessageBus.busPublishOnce,
      RabbitMqMessageBus.busConnect, PubState.fresh, h0, h1]

/-- Witness for C5: with the broker down throughout, publish attempts
twice, reconnects before the second attempt, and surfaces the error. -/
theorem publish_retries_once_witness :
    alwaysDown 0 = AttemptOutcome.amqpError ∧
    (RabbitMqMessageBus.publish alwaysDown PubState.fresh).1.attempts = 2 ∧
    (RabbitMqMessageBus.publish alwaysDown PubState.fresh).2
        = Except.error PubErr.amqp :=
  ⟨rfl, ((publish_retries_once alwaysDown).2.2 rfl).1,
   ((publish_retries_once alwaysDown).2.2 rfl).2.2.2 rfl⟩

/-- With cached credentials, `conn_params` leaves the bus untouched and
builds the parameters from its host, port and remaining kwargs. -/
theorem conn_params_cached {α : Type} (b : RabbitMqMessageBus α)
    (c : PlainCredentials) (h : b.credentials = some c) :
    RabbitMqMessageBus.conn_params b = (b, ⟨b.host, b.port, c, b.kwargs⟩) := by
  simp [RabbitMqMessageBus.conn_params, RabbitMqMessageBus.busCredentials, h]

/-- With cached credentials, the spawn loop of `start_consuming` appends
one consumer per subscription and emits one `start` per subscription, all
sharing the same connection parameters. -/
theorem startAll_cached {α : Type} (c : PlainCredentials)
    (subs : List (String × String × α)) :
    ∀ b : RabbitMqMessageBus α, b.credentials = some c →
      RabbitMqMessageBus.startAll b subs
        = ({ b with consumers := List.append b.consumers (List.map (fun s => mkConsumer ⟨b.host, b.port, c, b.kwargs⟩ s.1 s.2.1 s.2.2) subs) },
           List.map
             (fun s => BusOp.startUnit
               (mkConsumer ⟨b.host, b.port, c, b.kwargs⟩ s.1 s.2.1 s.2.2))
             subs) := by
  induction subs with
  | nil => intro b h; simp [RabbitMqMessageBus.startAll]
  | cons s rest ih =>
      intro b h
      have h1 : ({ b with consumers := List.append b.consumers [mkConsumer ⟨b.host, b.port, c, b.kwargs⟩ s.1 s.2.1 s.2.2] } :
            RabbitMqMessageBus α).credentials = some c := h
      simp only [RabbitMqMessageBus.startAll, conn_params_cached b c h]
      rw [ih _ h1]
      simp [List.append_assoc]

/-- Resolving credentials touches only `kwargs` and the credential cache:
host, port, subscriptions and consumers are unchanged, and afterwards the
cache holds the returned credentials. -/
theorem busCredentials_spec {α : Type} (b : RabbitMqMessageBus α) :
    (RabbitMqMessageBus.busCredentials b).1.credentials
        = some (RabbitMqMessageBus.busCredentials b).2 ∧
    (RabbitMqMessageBus.busCredentials b).1.host = b.host ∧
    (RabbitMqMessageBus.busCredentials b).1.port = b.port := by
  cases h : b.credentials <;>
    simp [RabbitMqMessageBus.busCredentials, h]

/-- A `join` is never among the operations of a pure spawn trace. -/
theorem joinUnit_not_mem_map_startUnit {α : Type} (c : RabbitMqConsumer α)
    (f : (String × String × α) → RabbitMqConsumer α)
    (l : List (String × String × α)) :
    BusOp.joinUnit c ∉ l.map (fun s => BusOp.startUnit (f s)) := by
  intro hc
  simp [List.mem_map] at hc

/-- On a non-empty subscription list, the spawn loop emits exactly one
`start` per subscription, in order, all with the connection parameters
resolved from the bus (its host and port). -/
theorem startAll_spec {α : Type} (b : RabbitMqMessageBus α)
    (s : String × String × α) (rest : List (String × String × α)) :
    ∃ params : ConnectionParameters,
      params.host = b.host ∧ params.port = b.port ∧
      (RabbitMqMessageBus.startAll b (s :: rest)).2
        = (s :: rest).map (fun t =>
            BusOp.startUnit (mkConsumer params t.1 t.2.1 t.2.2)) := by
  obtain ⟨hc, hh, hp⟩ := busCredentials_spec b
  refine ⟨⟨(RabbitMqMessageBus.busCredentials b).1.host,
           (RabbitMqMessageBus.busCredentials b).1.port,
           (RabbitMqMessageBus.busCredentials b).2,
           (RabbitMqMessageBus.busCredentials b).1.kwargs⟩, hh, hp, ?_⟩
  simp only [RabbitMqMessageBus.startAll, RabbitMqMessageBus.conn_params]
  rw [startAll_cached (RabbitMqMessageBus.busCredentials b).2 rest _
    (by simpa using hc)]
  simp

/-- C7 counterexample: on a concrete bus with two subscriptions,
`start_consuming` spawns both units and performs no join before
returning — contrary to the claim, it does not block until the units
exit. -/
theorem start_consuming_no_join_counterexample :
    twoSubBus.subscribers.length = 2 ∧
    (∃ c : RabbitMqConsumer Nat,
      BusOp.startUnit c ∈ (RabbitMqMessageBus.start_consuming twoSubBus).2) ∧
    ∀ c : RabbitMqConsumer Nat,
      BusOp.joinUnit c ∉ (RabbitMqMessageBus.start_consuming twoSubBus).2 := by
  have htrace : (RabbitMqMessageBus.start_consuming twoSubBus).2
      = [BusOp.startUnit
           (mkConsumer ⟨"localhost", 5672, ⟨"guest", "guest"⟩, []⟩ "t1" "g1" 0),
         BusOp.startUnit
           (mkConsumer ⟨"localhost", 5672, ⟨"guest", "guest"⟩, []⟩ "t2" "g2" 1)] := by
    rfl
  refine ⟨rfl,
    ⟨mkConsumer ⟨"localhost", 5672, ⟨"guest", "guest"⟩, []⟩ "t1" "g1" 0, ?_⟩, ?_⟩
  · rw [htrace]; exact List.mem_cons_self _ _
  · intro c hc
    rw [htrace] at hc
    simp at hc

/-- C7 (amended): with two or more registered subscriptions,
`start_consuming` issues exactly one spawn per subscription, in
registration order, each unit built for its (topic, group, handler) with
the bus's resolved connection parameters; it performs no join, returning
after spawning instead of blocking until the units exit (the non-daemonic
units keep running on their own until interrupted). -/
theorem start_consuming_many_spawns {α : Type} (b : RabbitMqMessageBus α)
    (h2 : 2 ≤ b.subscribers.length) :
    ∃ params : ConnectionParameters,
      params.host = b.host ∧ params.port = b.port ∧
      (RabbitMqMessageBus.start_consuming b).2
        = b.subscribers.map (fun s =>
            BusOp.startUnit (mkConsumer params s.1 s.2.1 s.2.2)) ∧
      ∀ c : RabbitMqConsumer α,
        BusOp.joinUnit c ∉ (RabbitMqMessageBus.start_consuming b).2 := by
  have h0 : b.subscribers.length ≠ 0 := by omega
  have h1 : b.subscribers.length ≠ 1 := by omega
  have hsc : RabbitMqMessageBus.start_consuming b
      = RabbitMqMessageBus.startAll b b.subscribers := by
    simp [RabbitMqMessageBus.start_consuming, h0, h1]
  obtain ⟨s, rest, hsub⟩ : ∃ s rest, b.subscribers = s :: rest := by
    cases hs : b.subscribers with
    | nil => rw [hs] at h0; simp at h0
    | cons s rest => exact ⟨s, rest, rfl⟩
  obtain ⟨params, hh, hp, htrace⟩ := startAll_spec b s rest
  refine ⟨params, hh, hp, ?_, ?_⟩
  · rw [hsc, hsub, htrace]
  · intro c
    rw [hsc, hsub, htrace]
    exact joinUnit_not_mem_map_startUnit c _ _

/-- Witness for C7 (amended) on the concrete two-subscription bus. -/
theorem start_consuming_many_spawns_witness :
    2 ≤ twoSubBus.subscribers.length ∧
    ∃ params : ConnectionParameters,
      params.host = twoSubBus.host ∧ params.port = twoSubBus.port ∧
      (RabbitMqMessageBus.start_consuming twoSubBus).2
        = twoSubBus.subscribers.map (fun s =>
            BusOp.startUnit (mkConsumer params s.1 s.2.1 s.2.2)) ∧
      ∀ c : RabbitMqConsumer Nat,
        BusOp.joinUnit c ∉ (RabbitMqMessageBus.start_consuming twoSubBus).2 :=
  ⟨by decide, start_consuming_many_spawns twoSubBus (by decide)⟩

end Msgbuzz
